import Mathlib

/-!
Shallow embedding of the core logic of the minecraft-environment-deployment
repository:

* `src/clients_counter/lib/clients_counter.py` — counting connected clients
  from CloudWatch log batches and CloudWatch alarm notifications, persisting
  the count via a DynamoDB atomic-add counter table.
* `src/switcher/lib/minecraft_switcher.py` — toggling a CloudFormation stack
  via parameter overrides, guarded by the connected-user counter.

The DynamoDB counter is modelled as an explicit `Option Int` state (`none` =
row absent; the ADD update expression creates the row at 0 and increments).
Base64/gzip/JSON transport decoding of log batches is treated as already
performed: functions take the decoded per-record message lists.  Python
exceptions become `Except` error values; the distinct exception classes are
distinct constructors.
-/

namespace MinecraftDeploy

/-- LogState enum of `clients_counter.py`. -/
inductive LogState where
  | JOINED
  | LEFT
  | INITIAL_ACTIVATION_OF_KINESIS_DATA_STREAM
  deriving DecidableEq, Repr

/-- Errors raised by the clients-counter log pipeline. -/
inductive CounterErr where
  | unknownLogState
  deriving DecidableEq, Repr

instance {ε α : Type} [DecidableEq ε] [DecidableEq α] : DecidableEq (Except ε α) := fun a b =>
  match a, b with
  | .error x, .error y =>
      if h : x = y then isTrue (congrArg Except.error h)
      else isFalse (fun hh => h (Except.error.inj hh))
  | .ok x, .ok y =>
      if h : x = y then isTrue (congrArg Except.ok h)
      else isFalse (fun hh => h (Except.ok.inj hh))
  | .error _, .ok _ => isFalse (fun hh => Except.noConfusion hh)
  | .ok _, .error _ => isFalse (fun hh => Except.noConfusion hh)

/-- Substring containment on char lists, the model of Python's `needle in s`. -/
def containsSub (needle : List Char) : List Char → Bool
  | [] => needle.isEmpty
  | c :: rest => needle.isPrefixOf (c :: rest) || containsSub needle rest

/-- Classification of one decoded log-event message, the body of the loop in
`CountCommandFromCloudWatchLogsToDynamoDB.analyze_log_text`: `'joined' in
message` → JOINED; elif `'left' in message` → LEFT; elif
`message.startswith('CWL CONTROL MESSAGE')` → initial activation record;
else raise `UnknownLogState`. -/
def classifyMessage (msg : String) : Except CounterErr LogState :=
  if containsSub "joined".toList msg.toList then
    .ok .JOINED
  else if containsSub "left".toList msg.toList then
    .ok .LEFT
  else if "CWL CONTROL MESSAGE".toList.isPrefixOf msg.toList then
    .ok .INITIAL_ACTIVATION_OF_KINESIS_DATA_STREAM
  else
    .error .unknownLogState

/-- Classify the `logEvents` messages of one decoded record, in order. -/
def analyzeRecord (msgs : List String) : Except CounterErr (List LogState) :=
  msgs.mapM classifyMessage

/-- `analyze_log_text`: classify every record of the decoded batch, in order,
producing one list of states per record.  The whole batch is classified before
the function returns; the first unrecognized message aborts with
`UnknownLogState`. -/
def analyze_log_text (records : List (List String)) :
    Except CounterErr (List (List LogState)) :=
  records.mapM analyzeRecord

/-- State of the DynamoDB counter row: `none` = row absent.  The ADD update
expression of `CounterTable.update_item` creates the attribute at 0 when
absent, adds the delta, and returns the new value. -/
def CounterTable.update_item (store : Option Int) (count : Int) :
    Int × Option Int :=
  let n := store.getD 0 + count
  (n, some n)

/-- The loop of `CountCommandFromCloudWatchLogsToDynamoDB.count` over the
flattened classified states: JOINED applies delta +1 and records the new
total, LEFT applies delta -1 and records the new total, the control-message
state is skipped (no store call). -/
def countStates (states : List LogState) (store : Option Int) :
    List Int × Option Int :=
  match states with
  | [] => ([], store)
  | .JOINED :: rest =>
      let (n, store1) := CounterTable.update_item store 1
      let (rs, store2) := countStates rest store1
      (n :: rs, store2)
  | .LEFT :: rest =>
      let (n, store1) := CounterTable.update_item store (-1)
      let (rs, store2) := countStates rest store1
      (n :: rs, store2)
  | .INITIAL_ACTIVATION_OF_KINESIS_DATA_STREAM :: rest =>
      countStates rest store

/-- `CountCommandFromCloudWatchLogsToDynamoDB.count`: first
`analyze_log_text` classifies the whole batch (this call is evaluated to
completion before the loop starts, so a classification failure happens before
any store mutation), then the loop walks
`itertools.chain.from_iterable(...)` of the result, mutating the counter per
JOINED/LEFT state and collecting the returned totals. -/
def count_logs (records : List (List String)) (store : Option Int) :
    Except CounterErr (List Int) × Option Int :=
  match analyze_log_text records with
  | .error e => (.error e, store)
  | .ok states => (.ok (countStates states.flatten store).1,
                   (countStates states.flatten store).2)

example : analyze_log_text [["user joined the game", "x left", "CWL CONTROL MESSAGE ok"]] =
    .ok [[.JOINED, .LEFT, .INITIAL_ACTIVATION_OF_KINESIS_DATA_STREAM]] := by decide

example : count_logs [["a joined", "b joined", "c left"]] none = (.ok [1, 2, 1], some 1) := by
  decide

example : count_logs [["a joined", "zzz"]] none = (.error .unknownLogState, none) := by decide

/-- Totals sequence as the spec describes log-based counting: +1 per Joined,
-1 per Left, control messages skipped, one resulting total per counted
record, in order.  Stated over the running count as a plain integer. -/
def specLogTotals : List LogState → Int → List Int
  | [], _ => []
  | .JOINED :: rest, c => (c + 1) :: specLogTotals rest (c + 1)
  | .LEFT :: rest, c => (c - 1) :: specLogTotals rest (c - 1)
  | .INITIAL_ACTIVATION_OF_KINESIS_DATA_STREAM :: rest, c => specLogTotals rest c

lemma countStates_fst (states : List LogState) (store : Option Int) :
    (countStates states store).1 = specLogTotals states (store.getD 0) := by
  induction states generalizing store with
  | nil => simp [countStates, specLogTotals]
  | cons s rest ih =>
    cases s <;>
      simp [countStates, CounterTable.update_item, specLogTotals, ih, sub_eq_add_neg]

lemma specLogTotals_all_control (states : List LogState) (c : Int)
    (h : ∀ s ∈ states, s = LogState.INITIAL_ACTIVATION_OF_KINESIS_DATA_STREAM) :
    specLogTotals states c = [] := by
  induction states generalizing c with
  | nil => simp [specLogTotals]
  | cons s rest ih =>
    have hs := h s (by simp)
    subst hs
    simp [specLogTotals]
    exact ih c (fun t ht => h t (by simp [ht]))

/-- C2: on a successfully classified batch, log-based counting returns the
ordered totals obtained by applying +1 per Joined record and -1 per Left
record and skipping ControlMessage records; in particular a batch of only
control messages returns the empty sequence. -/
theorem c2_count_totals (records : List (List String)) (store : Option Int)
    (states : List (List LogState))
    (h : analyze_log_text records = .ok states) :
    (count_logs records store).1 = .ok (specLogTotals states.flatten (store.getD 0)) ∧
    ((∀ s ∈ states.flatten, s = LogState.INITIAL_ACTIVATION_OF_KINESIS_DATA_STREAM) →
      (count_logs records store).1 = .ok []) := by
  have h1 : (count_logs records store).1 =
      .ok (specLogTotals states.flatten (store.getD 0)) := by
    simp [count_logs, h, countStates_fst]
  refine ⟨h1, fun hall => ?_⟩
  rw [h1, specLogTotals_all_control _ _ hall]

theorem c2_count_totals_witness :
    analyze_log_text [["a joined", "b joined", "c left"]] = .ok [[.JOINED, .JOINED, .LEFT]] ∧
    (count_logs [["a joined", "b joined", "c left"]] none).1 = .ok [1, 2, 1] ∧
    (count_logs [["CWL CONTROL MESSAGE x", "CWL CONTROL MESSAGE y"]] none).1 = .ok [] := by
  refine ⟨by decide, ?_, ?_⟩
  · rw [(c2_count_totals [["a joined", "b joined", "c left"]] none
      [[.JOINED, .JOINED, .LEFT]] (by decide)).1]
    decide
  · exact (c2_count_totals [["CWL CONTROL MESSAGE x", "CWL CONTROL MESSAGE y"]] none
      [[.INITIAL_ACTIVATION_OF_KINESIS_DATA_STREAM,
        .INITIAL_ACTIVATION_OF_KINESIS_DATA_STREAM]] (by decide)).2 (by decide)

/-- C1 as stated by the spec's design note: there would be a batch on which a
counted record's store mutation is applied before the UnknownLogState failure
is raised (partial application on failure).  This is false of the code:
`count` evaluates `analyze_log_text()` to completion before its loop starts,
so a classification failure anywhere leaves the counter untouched. -/
theorem c1_partial_application_refuted :
    ¬ ∃ (records : List (List String)) (store : Option Int),
        (count_logs records store).1 = .error .unknownLogState ∧
        (count_logs records store).2 ≠ store := by
  rintro ⟨records, store, h1, h2⟩
  cases h : analyze_log_text records with
  | error e => simp [count_logs, h] at h2
  | ok states => simp [count_logs, h] at h1

/-- C1 amended: whenever log-based counting fails, the whole batch was
classified before any store call, so the counter state is returned unchanged
(fail-fast with no partial application). -/
theorem c1_fail_no_mutation (records : List (List String)) (store : Option Int)
    (e : CounterErr) (h : (count_logs records store).1 = .error e) :
    (count_logs records store).2 = store := by
  cases ha : analyze_log_text records with
  | error e2 => simp [count_logs, ha]
  | ok states => simp [count_logs, ha] at h

theorem c1_fail_no_mutation_witness :
    (count_logs [["a joined", "zzz"]] (some 5)).1 = .error .unknownLogState ∧
    (count_logs [["a joined", "zzz"]] (some 5)).2 = some 5 :=
  ⟨by decide, c1_fail_no_mutation [["a joined", "zzz"]] (some 5) .unknownLogState (by decide)⟩

/-- C8: classification priority of `analyze_log_text` on one message: a
message containing "joined" is Joined (even if it also contains "left" or the
control prefix); otherwise one containing "left" is Left; otherwise one
starting with "CWL CONTROL MESSAGE" is the control state; anything else
raises UnknownLogState. -/
theorem c8_classify_priority (msg : String) :
    (containsSub "joined".toList msg.toList = true →
      classifyMessage msg = .ok .JOINED) ∧
    (containsSub "joined".toList msg.toList = false →
      containsSub "left".toList msg.toList = true →
      classifyMessage msg = .ok .LEFT) ∧
    (containsSub "joined".toList msg.toList = false →
      containsSub "left".toList msg.toList = false →
      "CWL CONTROL MESSAGE".toList.isPrefixOf msg.toList = true →
      classifyMessage msg = .ok .INITIAL_ACTIVATION_OF_KINESIS_DATA_STREAM) ∧
    (containsSub "joined".toList msg.toList = false →
      containsSub "left".toList msg.toList = false →
      "CWL CONTROL MESSAGE".toList.isPrefixOf msg.toList = false →
      classifyMessage msg = .error .unknownLogState) := by
  refine ⟨fun h1 => ?_, fun h1 h2 => ?_, fun h1 h2 h3 => ?_, fun h1 h2 h3 => ?_⟩
  · simp only [classifyMessage, h1]; simp
  · simp only [classifyMessage, h1, h2]; simp
  · simp only [classifyMessage, h1, h2, h3]; simp
  · simp only [classifyMessage, h1, h2, h3]; simp

theorem c8_classify_priority_witness :
    classifyMessage "CWL CONTROL MESSAGE user joined then left" = .ok .JOINED ∧
    classifyMessage "CWL CONTROL MESSAGE user left" = .ok .LEFT ∧
    classifyMessage "CWL CONTROL MESSAGE init" = .ok .INITIAL_ACTIVATION_OF_KINESIS_DATA_STREAM ∧
    classifyMessage "some other line" = .error .unknownLogState :=
  ⟨(c8_classify_priority _).1 (by decide),
   (c8_classify_priority _).2.1 (by decide) (by decide),
   (c8_classify_priority _).2.2.1 (by decide) (by decide) (by decide),
   (c8_classify_priority _).2.2.2 (by decide) (by decide) (by decide)⟩

/-! ## NotificationAnalysis.extract_datapoint

Model of `re.findall(r'\[([0-9.-]*)\s*\([^)]*\)\]', text)[0]` followed by
`float(...)`.  Since the character classes of adjacent greedy pieces are
disjoint, the regex is equivalent to maximal-munch scanning: at each `[` try
to read a run of `[0-9.-]`, a run of whitespace, `(`, a run of non-`)`, then
`)]`.  `findall(...)[0]` on no match raises IndexError; `float` on a capture
that is not a valid float literal raises ValueError. -/

/-- Errors of `extract_datapoint`: `findall(...)[0]` on an empty match list
(IndexError) or `float()` on a non-numeric capture (ValueError). -/
inductive ParseErr where
  | indexError
  | valueError
  deriving DecidableEq, Repr

/-- Character class `[0-9.-]` of the capture group. -/
def isNumChar (c : Char) : Bool := c.isDigit || c == '.' || c == '-'

/-- Attempt the pattern at the head of the list, returning the capture. -/
def matchAt (cs : List Char) : Option (List Char) :=
  match cs with
  | [] => none
  | c :: rest =>
    if c = '[' then
      let tok := rest.takeWhile isNumChar
      let rest1 := (rest.dropWhile isNumChar).dropWhile Char.isWhitespace
      match rest1 with
      | [] => none
      | c1 :: rest2 =>
        if c1 = '(' then
          match rest2.dropWhile (fun ch => ch != ')') with
          | c2 :: c3 :: _ => if c2 = ')' then (if c3 = ']' then some tok else none) else none
          | _ => none
        else none
    else none

/-- Leftmost match: scan positions left to right, as `re.findall` does for
the first element of its result. -/
def firstCapture : List Char → Option (List Char)
  | [] => none
  | c :: rest =>
    match matchAt (c :: rest) with
    | some tok => some tok
    | none => firstCapture rest

/-- Numeric value of a digit run. -/
def natOfDigits (ds : List Char) : Nat :=
  ds.foldl (fun n c => 10 * n + (c.toNat - '0'.toNat)) 0

/-- Python `float()` on an unsigned literal drawn from the `[0-9.-]` class:
digits, optionally a dot and further digits, at least one digit overall.
Returned as (scaled mantissa, power-of-ten denominator). -/
def parseUnsignedDecimal (cs : List Char) : Option (Nat × Nat) :=
  let ip := cs.takeWhile Char.isDigit
  let rest := cs.dropWhile Char.isDigit
  match rest with
  | [] => if ip.isEmpty then none else some (natOfDigits ip, 1)
  | c :: fp =>
    if c = '.' then
      if fp.all Char.isDigit && (!ip.isEmpty || !fp.isEmpty) then
        some (natOfDigits ip * 10 ^ fp.length + natOfDigits fp, 10 ^ fp.length)
      else none
    else none

/-- Python `float()` on a capture-group token (exact value as a rational;
every such literal is a decimal, so this is the mathematical value the
Python float approximates). -/
def pyFloatOfTok (cs : List Char) : Option Rat :=
  match cs with
  | [] => none
  | c :: rest =>
    if c = '-' then (parseUnsignedDecimal rest).map (fun p => mkRat (-(p.1 : Int)) p.2)
    else (parseUnsignedDecimal cs).map (fun p => mkRat (p.1 : Int) p.2)

/-- Core of `NotificationAnalysis.extract_datapoint` on a char list. -/
def extractCore (cs : List Char) : Except ParseErr Rat :=
  match firstCapture cs with
  | none => .error .indexError
  | some tok =>
    match pyFloatOfTok tok with
    | none => .error .valueError
    | some q => .ok q

/-- `NotificationAnalysis.extract_datapoint`. -/
def extract_datapoint (text : String) : Except ParseErr Rat :=
  extractCore text.toList

example : extract_datapoint "... [2.5 (01/01/22 00:00:00)] ..." = .ok (mkRat 5 2) := by decide

example : extract_datapoint "no bracketed segment" = .error .indexError := by decide

lemma takeWhile_append_cons (p : Char → Bool) (l : List Char) (c : Char) (r : List Char)
    (hl : ∀ x ∈ l, p x = true) (hc : p c = false) :
    (l ++ c :: r).takeWhile p = l ∧ (l ++ c :: r).dropWhile p = c :: r := by
  induction l with
  | nil => simp [List.takeWhile_cons, List.dropWhile_cons, hc]
  | cons x xs ih =>
    have hx := hl x (by simp)
    have ih' := ih (fun y hy => hl y (by simp [hy]))
    simp [List.takeWhile_cons, List.dropWhile_cons, hx, ih'.1, ih'.2]

lemma matchAt_not_bracket {c : Char} (h : ¬ c = '[') (rest : List Char) :
    matchAt (c :: rest) = none := by
  simp [matchAt, h]

lemma firstCapture_append (pre : List Char) (rest : List Char) (h : ∀ c ∈ pre, c ≠ '[') :
    firstCapture (pre ++ rest) = firstCapture rest := by
  induction pre with
  | nil => rfl
  | cons c pcs ih =>
    have hne : ¬ c = '[' := h c (by simp)
    simp [firstCapture, matchAt, hne, ih (fun x hx => h x (by simp [hx]))]

lemma firstCapture_no_bracket {cs : List Char} (h : ∀ c ∈ cs, c ≠ '[') :
    firstCapture cs = none := by
  have := firstCapture_append cs [] h
  simpa using this

lemma matchAt_hit (tok ts post : List Char)
    (htok : ∀ c ∈ tok, isNumChar c = true)
    (hts : ∀ c ∈ ts, (c != ')') = true) :
    matchAt ('[' :: (tok ++ ' ' :: '(' :: (ts ++ ')' :: ']' :: post))) = some tok := by
  have h1 := takeWhile_append_cons isNumChar tok ' '
    ('(' :: (ts ++ ')' :: ']' :: post)) htok (by decide)
  have h2 := takeWhile_append_cons (fun ch => ch != ')') ts ')'
    (']' :: post) hts (by decide)
  have hsp : (' ' :: '(' :: (ts ++ ')' :: ']' :: post)).dropWhile Char.isWhitespace =
      '(' :: (ts ++ ')' :: ']' :: post) := by
    have hw1 : Char.isWhitespace ' ' = true := by decide
    have hw2 : Char.isWhitespace '(' = false := by decide
    simp [List.dropWhile_cons, hw1, hw2]
  simp [matchAt, h1.1, h1.2, hsp, h2.2]

/-- C7: `extract_datapoint` returns the numeric token of the first bracketed
segment of shape `[<number> (<timestamp>)]` parsed as its (exact) numeric
value; on the spec's example it yields 2.5, and text without any `[` has no
match, so `findall(...)[0]` raises an index/lookup failure. -/
theorem c7_extract_datapoint :
    (extract_datapoint "... [2.5 (01/01/22 00:00:00)] ..." = .ok (5 / 2 : ℚ)) ∧
    (∀ text : String, '[' ∉ text.toList →
      extract_datapoint text = .error .indexError) ∧
    (∀ (text : String) (pre tok ts post : List Char) (v : ℚ),
      text.toList = pre ++ '[' :: (tok ++ ' ' :: '(' :: (ts ++ ')' :: ']' :: post)) →
      '[' ∉ pre →
      (∀ c ∈ tok, isNumChar c = true) →
      (∀ c ∈ ts, c ≠ ')') →
      pyFloatOfTok tok = some v →
      extract_datapoint text = .ok v) := by
  refine ⟨?_, ?_, ?_⟩
  · have h : extract_datapoint "... [2.5 (01/01/22 00:00:00)] ..." = .ok (mkRat 5 2) := by
      decide
    rw [h, Rat.mkRat_eq_div]
    norm_num
  · intro text h
    unfold extract_datapoint extractCore
    rw [firstCapture_no_bracket (fun c hc hceq => h (hceq ▸ hc))]
  · intro text pre tok ts post v htext hpre htok hts hv
    unfold extract_datapoint extractCore
    rw [htext, firstCapture_append pre _ (fun c hc hceq => hpre (hceq ▸ hc))]
    have hts' : ∀ c ∈ ts, (c != ')') = true := fun c hc => by
      simpa using hts c hc
    simp [firstCapture, matchAt_hit tok ts post htok hts', hv]

theorem c7_extract_datapoint_witness :
    extract_datapoint "no bracketed segment" = .error .indexError ∧
    extract_datapoint "x [3. (t)] y" = .ok (mkRat 3 1) :=
  ⟨(c7_extract_datapoint.2.1) "no bracketed segment" (by decide),
   (c7_extract_datapoint.2.2) "x [3. (t)] y" "x ".toList "3.".toList "t".toList " y".toList
     (mkRat 3 1) (by decide) (by decide) (by decide) (by decide) (by decide)⟩

/-! ## CountCommandFromCloudWatchAlarmToDynamoDB -/

/-- Errors of the alarm-based count: a failure inside
`extract_datapoint` propagates, and an alarm name matching neither
configured identity raises `AlarmNotFoundError`. -/
inductive AlarmErr where
  | parseError (e : ParseErr)
  | alarmNotFound
  deriving DecidableEq, Repr

/-- Observable outcome of one alarm-based count: the value returned by
`count` (the new counter total) together with the joined/left fields of the
JSON line it logs. -/
structure AlarmCountOutput where
  connected_count : Int
  joined_count : Int
  left_count : Int
  deriving DecidableEq, Repr

/-- Python `int()` applied to the exact value of the extracted float:
truncation toward zero. -/
def truncToInt (q : Rat) : Int :=
  if q.num < 0 then -(((-q.num).toNat / q.den : Nat) : Int)
  else ((q.num.toNat / q.den : Nat) : Int)

/-- `CountCommandFromCloudWatchAlarmToDynamoDB.count`: extract the datapoint
from `NewStateReason`, truncate it to an integer, then compare `AlarmName`
against the configured joined alarm name, else the configured left alarm
name (each an optional constructor kwarg, so an unset name matches no
string), applying delta `+metric` or `-metric` and returning the new total;
any other alarm name raises `AlarmNotFoundError` with no store call. -/
def count_alarm (alarmName : String) (reason : String)
    (joinedAlarmName leftAlarmName : Option String) (store : Option Int) :
    Except AlarmErr AlarmCountOutput × Option Int :=
  match extract_datapoint reason with
  | .error e => (.error (.parseError e), store)
  | .ok q =>
    let metric := truncToInt q
    if joinedAlarmName = some alarmName then
      ((.ok ⟨(CounterTable.update_item store metric).1, metric, 0⟩),
       (CounterTable.update_item store metric).2)
    else if leftAlarmName = some alarmName then
      ((.ok ⟨(CounterTable.update_item store (-metric)).1, 0, metric⟩),
       (CounterTable.update_item store (-metric)).2)
    else (.error .alarmNotFound, store)

example :
    count_alarm "joined_alarm" "... [3.0 (01/08/22 15:05:00)] ..."
      (some "joined_alarm") (some "left_alarm") (some 2) =
    (.ok ⟨5, 3, 0⟩, some 5) := by decide

/-- C3: with extracted magnitude `m`, an event whose alarm name equals the
configured joined alarm applies delta +m and returns the new total with
joined_count m; one that instead equals the configured left alarm applies
delta -m and returns the new total with left_count m; any other name raises
AlarmNotFoundError and leaves the counter unmutated. -/
theorem c3_count_alarm (alarmName reason : String)
    (joinedAlarmName leftAlarmName : Option String) (store : Option Int)
    (q : Rat) (m : Int)
    (hq : extract_datapoint reason = .ok q) (hm : truncToInt q = m) :
    (joinedAlarmName = some alarmName →
      count_alarm alarmName reason joinedAlarmName leftAlarmName store =
        (.ok ⟨store.getD 0 + m, m, 0⟩, some (store.getD 0 + m))) ∧
    (joinedAlarmName ≠ some alarmName → leftAlarmName = some alarmName →
      count_alarm alarmName reason joinedAlarmName leftAlarmName store =
        (.ok ⟨store.getD 0 - m, 0, m⟩, some (store.getD 0 - m))) ∧
    (joinedAlarmName ≠ some alarmName → leftAlarmName ≠ some alarmName →
      count_alarm alarmName reason joinedAlarmName leftAlarmName store =
        (.error .alarmNotFound, store)) := by
  refine ⟨fun h1 => ?_, fun h1 h2 => ?_, fun h1 h2 => ?_⟩ <;>
    simp [count_alarm, hq, hm, h1, CounterTable.update_item, sub_eq_add_neg] <;>
    simp [h2]

theorem c3_count_alarm_witness :
    count_alarm "joined_alarm" "... [3.0 (01/08/22 15:05:00)] ..."
      (some "joined_alarm") (some "left_alarm") (some 2) =
      (.ok ⟨5, 3, 0⟩, some 5) ∧
    count_alarm "left_alarm" "... [3.0 (01/08/22 15:05:00)] ..."
      (some "joined_alarm") (some "left_alarm") (some 2) =
      (.ok ⟨-1, 0, 3⟩, some (-1)) ∧
    count_alarm "other_alarm" "... [3.0 (01/08/22 15:05:00)] ..."
      (some "joined_alarm") (some "left_alarm") (some 2) =
      (.error .alarmNotFound, some 2) := by
  refine ⟨?_, ?_, ?_⟩
  · have h := (c3_count_alarm "joined_alarm" "... [3.0 (01/08/22 15:05:00)] ..."
      (some "joined_alarm") (some "left_alarm") (some 2) (mkRat 3 1) 3
      (by decide) (by decide)).1 rfl
    rw [h]; decide
  · have h := (c3_count_alarm "left_alarm" "... [3.0 (01/08/22 15:05:00)] ..."
      (some "joined_alarm") (some "left_alarm") (some 2) (mkRat 3 1) 3
      (by decide) (by decide)).2.1 (by decide) rfl
    rw [h]; decide
  · have h := (c3_count_alarm "other_alarm" "... [3.0 (01/08/22 15:05:00)] ..."
      (some "joined_alarm") (some "left_alarm") (some 2) (mkRat 3 1) 3
      (by decide) (by decide)).2.2 (by decide) (by decide)
    rw [h]

/-! ## MinecraftSwitcher (`src/switcher/lib/minecraft_switcher.py`)

The CloudFormation and DynamoDB collaborators are modelled as explicit
inputs: the current stack parameter list (`none` = stack not found, as
`get_cloudformation_parameters` returns `None` on `ClientError`), and the
persisted counter value (`none` = row absent, read as '0').  A successful
`update_cloudformation_stack` run is the `update_stack` API call it issues,
reified as an `UpdateStackCall` value; an error outcome means no API call. -/

/-- One current stack parameter as returned by `describe_stacks`. -/
structure CurrentParam where
  ParameterKey : String
  ParameterValue : String
  deriving DecidableEq, Repr

/-- One merged parameter as submitted to `update_stack`: either a fresh
`ParameterValue`, or the value deleted and `UsePreviousValue: True`
(`False` models the key being absent, which `p.get('UsePreviousValue')`
reads as falsy `None`). -/
structure MergedParam where
  ParameterKey : String
  ParameterValue : Option String
  UsePreviousValue : Bool
  deriving DecidableEq, Repr

/-- Errors of `update_cloudformation_stack`. -/
inductive SwitchErr where
  | userStillConnected
  | notFoundStack
  | unnecessaryToUpdate
  deriving DecidableEq, Repr

/-- The `update_stack` call issued on success. -/
structure UpdateStackCall where
  StackName : String
  Parameters : List MergedParam
  Capabilities : List String
  deriving DecidableEq, Repr

/-- `MinecraftSwitcher._override_param_if_need`: copy the parameter; if its
key is among the overrides and the override value differs from the current
value, replace the value; otherwise drop the value and set
`UsePreviousValue`. -/
def override_param_if_need (param : CurrentParam)
    (overrodeParameters : List (String × String)) : MergedParam :=
  match overrodeParameters.lookup param.ParameterKey with
  | some v =>
    if param.ParameterValue ≠ v then ⟨param.ParameterKey, some v, false⟩
    else ⟨param.ParameterKey, none, true⟩
  | none => ⟨param.ParameterKey, none, true⟩

/-- The list comprehension applying `_override_param_if_need` to every
current parameter, in order. -/
def override_params (ps : List CurrentParam)
    (overrodeParameters : List (String × String)) : List MergedParam :=
  ps.map (fun p => override_param_if_need p overrodeParameters)

/-- `MinecraftSwitcher._is_connected_any_users`: skipped (False) when no
table is configured; otherwise the persisted count (attribute path defaulted
to '0' when the row or attribute is absent) compared against 0. -/
def is_connected_any_users (tableName : Option String)
    (storedCount : Option Int) : Bool :=
  match tableName with
  | none => false
  | some _ => storedCount.getD 0 > 0

/-- The part of `update_cloudformation_stack` after the connected-user
guard: fetch parameters (`none` → NotFoundStackError), merge, and either
issue `update_stack` or raise UnnecessaryToUpdateStackError when every
merged parameter has `UsePreviousValue` set. -/
def merge_phase (stackName : String) (stackParams : Option (List CurrentParam))
    (overrodeParameters : List (String × String)) (capabilities : List String) :
    Except SwitchErr UpdateStackCall :=
  match stackParams with
  | none => .error .notFoundStack
  | some ps =>
    let params := override_params ps overrodeParameters
    if !(params.all (·.UsePreviousValue)) then
      .ok ⟨stackName, params, capabilities⟩
    else
      .error .unnecessaryToUpdate

/-- `MinecraftSwitcher.update_cloudformation_stack`. -/
def update_cloudformation_stack (stackName : String) (tableName : Option String)
    (storedCount : Option Int) (stackParams : Option (List CurrentParam))
    (overrodeParameters : List (String × String)) (capabilities : List String) :
    Except SwitchErr UpdateStackCall :=
  if is_connected_any_users tableName storedCount then
    .error .userStillConnected
  else
    merge_phase stackName stackParams overrodeParameters capabilities

example :
    update_cloudformation_stack "S" none none
      (some [⟨"A", "1"⟩, ⟨"B", "2"⟩]) [("A", "9")] [] =
    .ok ⟨"S", [⟨"A", some "9", false⟩, ⟨"B", none, true⟩], []⟩ := by decide

example :
    update_cloudformation_stack "S" none none (some [⟨"A", "1"⟩]) [("A", "1")] [] =
    .error .unnecessaryToUpdate := by decide

/-- C4: the merge emits one entry per current parameter; the entry for key K
with current value V carries a fresh value exactly when K is overridden with
a value different from V, and otherwise carries `UsePreviousValue: True`
with the value dropped, so each emitted entry has exactly one of a value or
the use-previous flag; on current A=1, B=2 with override A=9 this yields
A↦9 and B↦use-previous. -/
theorem c4_override_param (p : CurrentParam) (ov : List (String × String)) :
    (∀ v, ov.lookup p.ParameterKey = some v → p.ParameterValue ≠ v →
      override_param_if_need p ov = ⟨p.ParameterKey, some v, false⟩) ∧
    (ov.lookup p.ParameterKey = none ∨ ov.lookup p.ParameterKey = some p.ParameterValue →
      override_param_if_need p ov = ⟨p.ParameterKey, none, true⟩) ∧
    ((override_param_if_need p ov).ParameterValue.isSome =
      !(override_param_if_need p ov).UsePreviousValue) ∧
    (override_params [⟨"A", "1"⟩, ⟨"B", "2"⟩] [("A", "9")] =
      [⟨"A", some "9", false⟩, ⟨"B", none, true⟩]) := by
  refine ⟨fun v hv hne => ?_, fun h => ?_, ?_, by decide⟩
  · simp [override_param_if_need, hv, hne]
  · rcases h with h | h <;> simp [override_param_if_need, h]
  · unfold override_param_if_need
    cases h : ov.lookup p.ParameterKey with
    | none => simp
    | some v =>
      by_cases hne : p.ParameterValue ≠ v <;> simp [hne]

theorem c4_override_param_witness :
    override_param_if_need ⟨"A", "1"⟩ [("A", "9")] = ⟨"A", some "9", false⟩ ∧
    override_param_if_need ⟨"B", "2"⟩ [("A", "9")] = ⟨"B", none, true⟩ :=
  ⟨(c4_override_param ⟨"A", "1"⟩ [("A", "9")]).1 "9" (by decide) (by decide),
   (c4_override_param ⟨"B", "2"⟩ [("A", "9")]).2.1 (Or.inl (by decide))⟩

/-- C5: past the guard and with the stack found, UnnecessaryToUpdateStackError
is raised exactly when every merged parameter has use-previous set (no key
changed), and no `update_stack` call happens then; when at least one
parameter changed, the `update_stack` call is issued with the merged
parameter list and the error is not raised. -/
theorem c5_unnecessary_update (stackName : String) (tableName : Option String)
    (stored : Option Int) (ps : List CurrentParam) (ov : List (String × String))
    (caps : List String)
    (hguard : is_connected_any_users tableName stored = false) :
    (update_cloudformation_stack stackName tableName stored (some ps) ov caps =
        .error .unnecessaryToUpdate ↔
      (override_params ps ov).all (·.UsePreviousValue) = true) ∧
    ((override_params ps ov).all (·.UsePreviousValue) = false →
      update_cloudformation_stack stackName tableName stored (some ps) ov caps =
        .ok ⟨stackName, override_params ps ov, caps⟩) := by
  constructor
  · cases h : (override_params ps ov).all (·.UsePreviousValue) <;>
      simp [update_cloudformation_stack, hguard, merge_phase, h]
  · intro h
    simp [update_cloudformation_stack, hguard, merge_phase, h]

theorem c5_unnecessary_update_witness :
    update_cloudformation_stack "S" none none (some [⟨"A", "1"⟩]) [("A", "1")] [] =
      .error .unnecessaryToUpdate ∧
    update_cloudformation_stack "S" none none (some [⟨"A", "1"⟩]) [("A", "9")] [] =
      .ok ⟨"S", [⟨"A", some "9", false⟩], []⟩ := by
  constructor
  · exact (c5_unnecessary_update "S" none none [⟨"A", "1"⟩] [("A", "1")] []
      (by decide)).1.mpr (by decide)
  · have h := (c5_unnecessary_update "S" none none [⟨"A", "1"⟩] [("A", "9")] []
      (by decide)).2 (by decide)
    rw [h]; decide

/-- C6: with a counter table configured and persisted count > 0,
`update_cloudformation_stack` raises UserStillConnectedError first, whatever
the stack parameters and overrides are; with count 0 or the row absent it
proceeds to the merge phase; with no table configured the guard is skipped
and it always proceeds to the merge phase. -/
theorem c6_connected_guard (stackName : String) (stored : Option Int)
    (sp : Option (List CurrentParam)) (ov : List (String × String))
    (caps : List String) :
    (∀ tn : String, stored.getD 0 > 0 →
      update_cloudformation_stack stackName (some tn) stored sp ov caps =
        .error .userStillConnected) ∧
    (∀ tn : String, stored = none ∨ stored = some 0 →
      update_cloudformation_stack stackName (some tn) stored sp ov caps =
        merge_phase stackName sp ov caps) ∧
    (update_cloudformation_stack stackName none stored sp ov caps =
      merge_phase stackName sp ov caps) := by
  refine ⟨fun tn h => ?_, fun tn h => ?_, ?_⟩
  · simp [update_cloudformation_stack, is_connected_any_users, h]
  · rcases h with h | h <;> subst h <;>
      simp [update_cloudformation_stack, is_connected_any_users]
  · simp [update_cloudformation_stack, is_connected_any_users]

theorem c6_connected_guard_witness :
    update_cloudformation_stack "S" (some "T") (some 1)
      (some [⟨"A", "1"⟩]) [("A", "9")] [] = .error .userStillConnected ∧
    update_cloudformation_stack "S" (some "T") (some 0)
      (some [⟨"A", "1"⟩]) [("A", "9")] [] =
      merge_phase "S" (some [⟨"A", "1"⟩]) [("A", "9")] [] ∧
    update_cloudformation_stack "S" none (some 1)
      (some [⟨"A", "1"⟩]) [("A", "9")] [] =
      merge_phase "S" (some [⟨"A", "1"⟩]) [("A", "9")] [] :=
  ⟨(c6_connected_guard "S" (some 1) (some [⟨"A", "1"⟩]) [("A", "9")] []).1 "T"
      (by decide),
   (c6_connected_guard "S" (some 0) (some [⟨"A", "1"⟩]) [("A", "9")] []).2.1 "T"
      (Or.inr rfl),
   (c6_connected_guard "S" (some 1) (some [⟨"A", "1"⟩]) [("A", "9")] []).2.2⟩

/-- Python values a caller can pass for the constructor arguments of
`MinecraftSwitcher`. -/
inductive PyVal where
  | pyStr (s : String)
  | pyNone
  | pyInt (n : Int)
  deriving DecidableEq, Repr

/-- Error of the bare `raise` in `MinecraftSwitcher.__init__` (re-raising
with no active exception is a RuntimeError). -/
inductive InitErr where
  | runtimeError
  deriving DecidableEq, Repr

/-- A constructed `MinecraftSwitcher`: the three constructor arguments as
stored on the instance. -/
structure MinecraftSwitcher where
  stack_name : PyVal
  table_name : PyVal
  primary_key_column_name : PyVal
  deriving DecidableEq, Repr

/-- `MinecraftSwitcher.__init__`: `if not(type(stack_name) is str and
len(stack_name)): raise`, then store the three arguments unchanged. -/
def MinecraftSwitcher.init (stack_name table_name primary_key_column_name : PyVal) :
    Except InitErr MinecraftSwitcher :=
  if (match stack_name with
      | .pyStr s => s.length != 0
      | _ => false) then
    .ok ⟨stack_name, table_name, primary_key_column_name⟩
  else
    .error .runtimeError

lemma str_len_ne_zero {s : String} (h : s ≠ "") : s.length ≠ 0 := by
  intro hl
  apply h
  cases s with
  | mk data =>
    simp [String.length] at hl
    simp [hl]

/-- C10: constructing a MinecraftSwitcher succeeds for every non-empty
string stack name, storing the table name and primary-key column name
without validation, and raises for every other stack-name value (None,
empty string, non-string). -/
theorem c10_init_validation (table_name primary_key_column_name : PyVal) :
    (∀ s : String, s ≠ "" →
      MinecraftSwitcher.init (.pyStr s) table_name primary_key_column_name =
        .ok ⟨.pyStr s, table_name, primary_key_column_name⟩) ∧
    (∀ v : PyVal, (∀ s : String, v = .pyStr s → s = "") →
      MinecraftSwitcher.init v table_name primary_key_column_name =
        .error .runtimeError) := by
  constructor
  · intro s hs
    have h := str_len_ne_zero hs
    simp [MinecraftSwitcher.init, h]
  · intro v hv
    cases v with
    | pyStr s =>
      have hs := hv s rfl
      subst hs
      simp [MinecraftSwitcher.init]
    | pyNone => simp [MinecraftSwitcher.init]
    | pyInt n => simp [MinecraftSwitcher.init]

theorem c10_init_validation_witness :
    MinecraftSwitcher.init (.pyStr "SampleStack") (.pyStr "SampleTable") (.pyStr "id") =
      .ok ⟨.pyStr "SampleStack", .pyStr "SampleTable", .pyStr "id"⟩ ∧
    MinecraftSwitcher.init (.pyStr "") (.pyStr "SampleTable") (.pyStr "id") =
      .error .runtimeError ∧
    MinecraftSwitcher.init .pyNone (.pyStr "SampleTable") (.pyStr "id") =
      .error .runtimeError ∧
    MinecraftSwitcher.init (.pyInt 5) (.pyStr "SampleTable") (.pyStr "id") =
      .error .runtimeError :=
  ⟨(c10_init_validation (.pyStr "SampleTable") (.pyStr "id")).1 "SampleStack" (by decide),
   (c10_init_validation (.pyStr "SampleTable") (.pyStr "id")).2 (.pyStr "")
      (fun s hs => by cases hs; rfl),
   (c10_init_validation (.pyStr "SampleTable") (.pyStr "id")).2 .pyNone
      (fun s hs => by cases hs),
   (c10_init_validation (.pyStr "SampleTable") (.pyStr "id")).2 (.pyInt 5)
      (fun s hs => by cases hs)⟩

/-! ## check_event_source

Inbound events are JSON-shaped Python values.  Subscripting follows Python:
a string key on a dict is a lookup (KeyError when missing), on anything else
a TypeError; an integer index on a list or string is positional (IndexError
when out of range), on a dict a KeyError (JSON object keys are strings, so
an integer key is never present), on anything else a TypeError.  Both
`check_event_source` variants catch only KeyError and TypeError, re-raising
them as UnknownEventSource; an IndexError propagates uncaught. -/

/-- JSON-shaped Python value. -/
inductive JVal where
  | null
  | jbool (b : Bool)
  | jnum (n : Int)
  | jstr (s : String)
  | jarr (xs : List JVal)
  | jobj (fields : List (String × JVal))

/-- Python errors that subscripting and `len` can raise. -/
inductive PyErr where
  | keyError
  | typeError
  | indexError
  deriving DecidableEq, Repr

/-- Errors visible at the `check_event_source` boundary. -/
inductive CheckErr where
  | unknownEventSource
  | indexError
  deriving DecidableEq, Repr

/-- Subscript by string key: `v[k]`. -/
def pyGetKey (v : JVal) (k : String) : Except PyErr JVal :=
  match v with
  | .jobj fields =>
    match fields.lookup k with
    | some x => .ok x
    | none => .error .keyError
  | _ => .error .typeError

/-- Subscript by integer index: `v[i]`. -/
def pyGetIdx (v : JVal) (i : Nat) : Except PyErr JVal :=
  match v with
  | .jarr xs =>
    match xs[i]? with
    | some x => .ok x
    | none => .error .indexError
  | .jstr s =>
    match s.data[i]? with
    | some c => .ok (.jstr (String.mk [c]))
    | none => .error .indexError
  | .jobj _ => .error .keyError
  | _ => .error .typeError

/-- Python `len(v)`. -/
def pyLen (v : JVal) : Except PyErr Nat :=
  match v with
  | .jarr xs => .ok xs.length
  | .jstr s => .ok s.length
  | .jobj fields => .ok fields.length
  | _ => .error .typeError

/-- Python truthiness of a JSON-shaped value. -/
def pyTruthy (v : JVal) : Bool :=
  match v with
  | .null => false
  | .jbool b => b
  | .jnum n => n != 0
  | .jstr s => s.length != 0
  | .jarr xs => !xs.isEmpty
  | .jobj fields => !fields.isEmpty

/-- `except (KeyError, TypeError): raise UnknownEventSource()`; an
IndexError is not caught and propagates. -/
def wrapErr (e : PyErr) : CheckErr :=
  match e with
  | .keyError => .unknownEventSource
  | .typeError => .unknownEventSource
  | .indexError => .indexError

/-- `CountCommandFromCloudWatchLogsToDynamoDB.check_event_source`:
`len(self.event['Records']) >= 1 and self.event['Records'][0]['kinesis']`,
with KeyError/TypeError mapped to UnknownEventSource.  The Python `and`
returns `False` itself when the length test fails. -/
def check_event_source_logs (event : JVal) : Except CheckErr JVal :=
  match pyGetKey event "Records" with
  | .error e => .error (wrapErr e)
  | .ok records =>
    match pyLen records with
    | .error e => .error (wrapErr e)
    | .ok n =>
      if n ≥ 1 then
        match pyGetIdx records 0 with
        | .error e => .error (wrapErr e)
        | .ok r0 =>
          match pyGetKey r0 "kinesis" with
          | .error e => .error (wrapErr e)
          | .ok v => .ok v
      else .ok (.jbool false)

/-- `CountCommandFromCloudWatchAlarmToDynamoDB.check_event_source`:
`self.event['Records'][0]['Sns']['Message']`, with KeyError/TypeError mapped
to UnknownEventSource. -/
def check_event_source_alarm (event : JVal) : Except CheckErr JVal :=
  match pyGetKey event "Records" with
  | .error e => .error (wrapErr e)
  | .ok records =>
    match pyGetIdx records 0 with
    | .error e => .error (wrapErr e)
    | .ok r0 =>
      match pyGetKey r0 "Sns" with
      | .error e => .error (wrapErr e)
      | .ok sns =>
        match pyGetKey sns "Message" with
        | .error e => .error (wrapErr e)
        | .ok msg => .ok msg

/-- Modelled from the spec: the expected non-empty record structure of the
logs variant — a `Records` list whose first record carries a truthy
`kinesis` field. -/
def goodLogsShape (event : JVal) : Bool :=
  match event with
  | .jobj fields =>
    match fields.lookup "Records" with
    | some (.jarr (r :: _)) =>
      match r with
      | .jobj rf =>
        match rf.lookup "kinesis" with
        | some kv => pyTruthy kv
        | none => false
      | _ => false
    | _ => false
  | _ => false

/-- Modelled from the spec: an explicitly-empty-but-well-shaped structure
for the logs variant — `Records` present and empty, or a first record whose
`kinesis` field is present but falsy. -/
def emptyWellShapedLogs (event : JVal) : Bool :=
  match event with
  | .jobj fields =>
    match fields.lookup "Records" with
    | some rv =>
      (match pyLen rv with
       | .ok 0 => true
       | _ => false) ||
      (match rv with
       | .jarr (r :: _) =>
         match r with
         | .jobj rf =>
           match rf.lookup "kinesis" with
           | some kv => !pyTruthy kv
           | none => false
         | _ => false
       | _ => false)
    | none => false
  | _ => false

lemma checkLogs_ok_cases (e v : JVal) (h : check_event_source_logs e = .ok v) :
    (pyTruthy v = true ∧ goodLogsShape e = true) ∨
    (pyTruthy v = false ∧ emptyWellShapedLogs e = true) := by
  cases e with
  | null => simp [check_event_source_logs, pyGetKey] at h
  | jbool b => simp [check_event_source_logs, pyGetKey] at h
  | jnum n => simp [check_event_source_logs, pyGetKey] at h
  | jstr s => simp [check_event_source_logs, pyGetKey] at h
  | jarr xs => simp [check_event_source_logs, pyGetKey] at h
  | jobj fields =>
    cases hlk : fields.lookup "Records" with
    | none => simp [check_event_source_logs, pyGetKey, hlk] at h
    | some rv =>
      cases rv with
      | null => simp [check_event_source_logs, pyGetKey, hlk, pyLen] at h
      | jbool b => simp [check_event_source_logs, pyGetKey, hlk, pyLen] at h
      | jnum n => simp [check_event_source_logs, pyGetKey, hlk, pyLen] at h
      | jstr s =>
        by_cases hn : s.length ≥ 1
        · cases hc : s.data[0]? with
          | none =>
            simp [check_event_source_logs, pyGetKey, hlk, pyLen, pyGetIdx, hn, hc] at h
          | some c =>
            simp [check_event_source_logs, pyGetKey, hlk, pyLen, pyGetIdx, hn, hc] at h
        · right
          have h0 : s.length = 0 := by omega
          simp [check_event_source_logs, pyGetKey, hlk, pyLen, hn] at h
          subst h
          simp [pyTruthy, emptyWellShapedLogs, hlk, pyLen, h0]
      | jarr xs =>
        cases xs with
        | nil =>
          right
          simp [check_event_source_logs, pyGetKey, hlk, pyLen] at h
          subst h
          simp [pyTruthy, emptyWellShapedLogs, hlk, pyLen]
        | cons r rest =>
          have hlen : (r :: rest).length ≥ 1 := by simp
          cases r with
          | jobj rf =>
            cases hk : rf.lookup "kinesis" with
            | none =>
              simp [check_event_source_logs, pyGetKey, hlk, pyLen, pyGetIdx, hlen, hk] at h
            | some kv =>
              simp [check_event_source_logs, pyGetKey, hlk, pyLen, pyGetIdx, hlen, hk] at h
              subst h
              by_cases ht : pyTruthy kv = true
              · exact Or.inl ⟨ht, by simp [goodLogsShape, hlk, hk, ht]⟩
              · have ht' : pyTruthy kv = false := by
                  cases hb : pyTruthy kv
                  · rfl
                  · exact absurd hb ht
                refine Or.inr ⟨ht', ?_⟩
                simp [emptyWellShapedLogs, hlk, hk, ht', pyLen]
          | null =>
            simp [check_event_source_logs, pyGetKey, hlk, pyLen, pyGetIdx, hlen] at h
          | jbool b =>
            simp [check_event_source_logs, pyGetKey, hlk, pyLen, pyGetIdx, hlen] at h
          | jnum n =>
            simp [check_event_source_logs, pyGetKey, hlk, pyLen, pyGetIdx, hlen] at h
          | jstr s =>
            simp [check_event_source_logs, pyGetKey, hlk, pyLen, pyGetIdx, hlen] at h
          | jarr ys =>
            simp [check_event_source_logs, pyGetKey, hlk, pyLen, pyGetIdx, hlen] at h
      | jobj ofields =>
        by_cases hn : ofields.length ≥ 1
        · simp [check_event_source_logs, pyGetKey, hlk, pyLen, pyGetIdx, hn] at h
        · right
          have h0 : ofields.length = 0 := by omega
          simp [check_event_source_logs, pyGetKey, hlk, pyLen, hn] at h
          subst h
          simp [pyTruthy, emptyWellShapedLogs, hlk, pyLen, h0]

lemma checkLogs_err_eq (e : JVal) (err : CheckErr)
    (h : check_event_source_logs e = .error err) : err = .unknownEventSource := by
  cases e with
  | null => simp [check_event_source_logs, pyGetKey, wrapErr] at h; exact h.symm
  | jbool b => simp [check_event_source_logs, pyGetKey, wrapErr] at h; exact h.symm
  | jnum n => simp [check_event_source_logs, pyGetKey, wrapErr] at h; exact h.symm
  | jstr s => simp [check_event_source_logs, pyGetKey, wrapErr] at h; exact h.symm
  | jarr xs => simp [check_event_source_logs, pyGetKey, wrapErr] at h; exact h.symm
  | jobj fields =>
    cases hlk : fields.lookup "Records" with
    | none =>
      simp [check_event_source_logs, pyGetKey, hlk, wrapErr] at h
      exact h.symm
    | some rv =>
      cases rv with
      | null =>
        simp [check_event_source_logs, pyGetKey, hlk, pyLen, wrapErr] at h; exact h.symm
      | jbool b =>
        simp [check_event_source_logs, pyGetKey, hlk, pyLen, wrapErr] at h; exact h.symm
      | jnum n =>
        simp [check_event_source_logs, pyGetKey, hlk, pyLen, wrapErr] at h; exact h.symm
      | jstr s =>
        by_cases hn : s.length ≥ 1
        · cases hc : s.data[0]? with
          | none =>
            exfalso
            have hlen : s.data.length ≤ 0 := by
              simpa using List.getElem?_eq_none_iff.mp hc
            have : s.length = s.data.length := rfl
            omega
          | some c =>
            simp [check_event_source_logs, pyGetKey, hlk, pyLen, pyGetIdx, hn, hc,
              wrapErr] at h
            exact h.symm
        · simp [check_event_source_logs, pyGetKey, hlk, pyLen, hn] at h
      | jarr xs =>
        cases xs with
        | nil => simp [check_event_source_logs, pyGetKey, hlk, pyLen] at h
        | cons r rest =>
          have hlen : (r :: rest).length ≥ 1 := by simp
          cases r with
          | jobj rf =>
            cases hk : rf.lookup "kinesis" with
            | none =>
              simp [check_event_source_logs, pyGetKey, hlk, pyLen, pyGetIdx, hlen, hk,
                wrapErr] at h
              exact h.symm
            | some kv =>
              simp [check_event_source_logs, pyGetKey, hlk, pyLen, pyGetIdx, hlen,
                hk] at h
          | null =>
            simp [check_event_source_logs, pyGetKey, hlk, pyLen, pyGetIdx, hlen,
              wrapErr] at h
            exact h.symm
          | jbool b =>
            simp [check_event_source_logs, pyGetKey, hlk, pyLen, pyGetIdx, hlen,
              wrapErr] at h
            exact h.symm
          | jnum n =>
            simp [check_event_source_logs, pyGetKey, hlk, pyLen, pyGetIdx, hlen,
              wrapErr] at h
            exact h.symm
          | jstr s =>
            simp [check_event_source_logs, pyGetKey, hlk, pyLen, pyGetIdx, hlen,
              wrapErr] at h
            exact h.symm
          | jarr ys =>
            simp [check_event_source_logs, pyGetKey, hlk, pyLen, pyGetIdx, hlen,
              wrapErr] at h
            exact h.symm
      | jobj ofields =>
        by_cases hn : ofields.length ≥ 1
        · simp [check_event_source_logs, pyGetKey, hlk, pyLen, pyGetIdx, hn,
            wrapErr] at h
          exact h.symm
        · simp [check_event_source_logs, pyGetKey, hlk, pyLen, hn] at h

/-- Modelled from the spec: the expected non-empty record structure of the
alarm variant — a `Records` list whose first record carries an `Sns` object
with a truthy `Message`. -/
def goodAlarmShape (event : JVal) : Bool :=
  match event with
  | .jobj fields =>
    match fields.lookup "Records" with
    | some (.jarr (r :: _)) =>
      match r with
      | .jobj rf =>
        match rf.lookup "Sns" with
        | some (.jobj sf) =>
          match sf.lookup "Message" with
          | some m => pyTruthy m
          | none => false
        | _ => false
      | _ => false
    | _ => false
  | _ => false

/-- Modelled from the spec: an explicitly-empty-but-well-shaped structure
for the alarm variant — the full path present but with a falsy `Message`. -/
def emptyWellShapedAlarm (event : JVal) : Bool :=
  match event with
  | .jobj fields =>
    match fields.lookup "Records" with
    | some (.jarr (r :: _)) =>
      match r with
      | .jobj rf =>
        match rf.lookup "Sns" with
        | some (.jobj sf) =>
          match sf.lookup "Message" with
          | some m => !pyTruthy m
          | none => false
        | _ => false
      | _ => false
    | _ => false
  | _ => false

lemma checkAlarm_ok_cases (e v : JVal) (h : check_event_source_alarm e = .ok v) :
    (pyTruthy v = true ∧ goodAlarmShape e = true) ∨
    (pyTruthy v = false ∧ emptyWellShapedAlarm e = true) := by
  cases e with
  | null => simp [check_event_source_alarm, pyGetKey] at h
  | jbool b => simp [check_event_source_alarm, pyGetKey] at h
  | jnum n => simp [check_event_source_alarm, pyGetKey] at h
  | jstr s => simp [check_event_source_alarm, pyGetKey] at h
  | jarr xs => simp [check_event_source_alarm, pyGetKey] at h
  | jobj fields =>
    cases hlk : fields.lookup "Records" with
    | none => simp [check_event_source_alarm, pyGetKey, hlk] at h
    | some rv =>
      cases rv with
      | null => simp [check_event_source_alarm, pyGetKey, hlk, pyGetIdx] at h
      | jbool b => simp [check_event_source_alarm, pyGetKey, hlk, pyGetIdx] at h
      | jnum n => simp [check_event_source_alarm, pyGetKey, hlk, pyGetIdx] at h
      | jobj ofields => simp [check_event_source_alarm, pyGetKey, hlk, pyGetIdx] at h
      | jstr s =>
        cases hc : s.data[0]? with
        | none => simp [check_event_source_alarm, pyGetKey, hlk, pyGetIdx, hc] at h
        | some c => simp [check_event_source_alarm, pyGetKey, hlk, pyGetIdx, hc] at h
      | jarr xs =>
        cases xs with
        | nil => simp [check_event_source_alarm, pyGetKey, hlk, pyGetIdx] at h
        | cons r rest =>
          cases r with
          | null => simp [check_event_source_alarm, pyGetKey, hlk, pyGetIdx] at h
          | jbool b => simp [check_event_source_alarm, pyGetKey, hlk, pyGetIdx] at h
          | jnum n => simp [check_event_source_alarm, pyGetKey, hlk, pyGetIdx] at h
          | jstr s => simp [check_event_source_alarm, pyGetKey, hlk, pyGetIdx] at h
          | jarr ys => simp [check_event_source_alarm, pyGetKey, hlk, pyGetIdx] at h
          | jobj rf =>
            cases hs : rf.lookup "Sns" with
            | none =>
              simp [check_event_source_alarm, pyGetKey, hlk, pyGetIdx, hs] at h
            | some sns =>
              cases sns with
              | null =>
                simp [check_event_source_alarm, pyGetKey, hlk, pyGetIdx, hs] at h
              | jbool b =>
                simp [check_event_source_alarm, pyGetKey, hlk, pyGetIdx, hs] at h
              | jnum n =>
                simp [check_event_source_alarm, pyGetKey, hlk, pyGetIdx, hs] at h
              | jstr s2 =>
                simp [check_event_source_alarm, pyGetKey, hlk, pyGetIdx, hs] at h
              | jarr ys =>
                simp [check_event_source_alarm, pyGetKey, hlk, pyGetIdx, hs] at h
              | jobj sf =>
                cases hm : sf.lookup "Message" with
                | none =>
                  simp [check_event_source_alarm, pyGetKey, hlk, pyGetIdx, hs, hm] at h
                | some m =>
                  simp [check_event_source_alarm, pyGetKey, hlk, pyGetIdx, hs, hm] at h
                  subst h
                  by_cases ht : pyTruthy m = true
                  · exact Or.inl ⟨ht, by simp [goodAlarmShape, hlk, hs, hm, ht]⟩
                  · have ht' : pyTruthy m = false := by
                      cases hb : pyTruthy m
                      · rfl
                      · exact absurd hb ht
                    exact Or.inr ⟨ht', by simp [emptyWellShapedAlarm, hlk, hs, hm, ht']⟩

lemma checkAlarm_index_cases (e : JVal)
    (h : check_event_source_alarm e = .error .indexError) :
    ∃ rv, pyGetKey e "Records" = .ok rv ∧ pyLen rv = .ok 0 := by
  cases e with
  | null => simp [check_event_source_alarm, pyGetKey, wrapErr] at h
  | jbool b => simp [check_event_source_alarm, pyGetKey, wrapErr] at h
  | jnum n => simp [check_event_source_alarm, pyGetKey, wrapErr] at h
  | jstr s => simp [check_event_source_alarm, pyGetKey, wrapErr] at h
  | jarr xs => simp [check_event_source_alarm, pyGetKey, wrapErr] at h
  | jobj fields =>
    cases hlk : fields.lookup "Records" with
    | none => simp [check_event_source_alarm, pyGetKey, hlk, wrapErr] at h
    | some rv =>
      refine ⟨rv, by simp [pyGetKey, hlk], ?_⟩
      cases rv with
      | null => simp [check_event_source_alarm, pyGetKey, hlk, pyGetIdx, wrapErr] at h
      | jbool b => simp [check_event_source_alarm, pyGetKey, hlk, pyGetIdx, wrapErr] at h
      | jnum n => simp [check_event_source_alarm, pyGetKey, hlk, pyGetIdx, wrapErr] at h
      | jobj ofields =>
        simp [check_event_source_alarm, pyGetKey, hlk, pyGetIdx, wrapErr] at h
      | jstr s =>
        cases hc : s.data[0]? with
        | none =>
          have hlen : s.data.length ≤ 0 := by
            simpa using List.getElem?_eq_none_iff.mp hc
          have hz : s.length = 0 := by
            have : s.length = s.data.length := rfl
            omega
          simp [pyLen, hz]
        | some c =>
          simp [check_event_source_alarm, pyGetKey, hlk, pyGetIdx, hc, wrapErr] at h
      | jarr xs =>
        cases xs with
        | nil => simp [pyLen]
        | cons r rest =>
          exfalso
          cases r with
          | null => simp [check_event_source_alarm, pyGetKey, hlk, pyGetIdx, wrapErr] at h
          | jbool b =>
            simp [check_event_source_alarm, pyGetKey, hlk, pyGetIdx, wrapErr] at h
          | jnum n =>
            simp [check_event_source_alarm, pyGetKey, hlk, pyGetIdx, wrapErr] at h
          | jstr s =>
            simp [check_event_source_alarm, pyGetKey, hlk, pyGetIdx, wrapErr] at h
          | jarr ys =>
            simp [check_event_source_alarm, pyGetKey, hlk, pyGetIdx, wrapErr] at h
          | jobj rf =>
            cases hs : rf.lookup "Sns" with
            | none =>
              simp [check_event_source_alarm, pyGetKey, hlk, pyGetIdx, hs, wrapErr] at h
            | some sns =>
              cases sns with
              | null =>
                simp [check_event_source_alarm, pyGetKey, hlk, pyGetIdx, hs, wrapErr] at h
              | jbool b =>
                simp [check_event_source_alarm, pyGetKey, hlk, pyGetIdx, hs, wrapErr] at h
              | jnum n =>
                simp [check_event_source_alarm, pyGetKey, hlk, pyGetIdx, hs, wrapErr] at h
              | jstr s2 =>
                simp [check_event_source_alarm, pyGetKey, hlk, pyGetIdx, hs, wrapErr] at h
              | jarr ys =>
                simp [check_event_source_alarm, pyGetKey, hlk, pyGetIdx, hs, wrapErr] at h
              | jobj sf =>
                cases hm : sf.lookup "Message" with
                | none =>
                  simp [check_event_source_alarm, pyGetKey, hlk, pyGetIdx, hs, hm,
                    wrapErr] at h
                | some m =>
                  simp [check_event_source_alarm, pyGetKey, hlk, pyGetIdx, hs, hm] at h

lemma goodLogs_not_empty (e : JVal) (hg : goodLogsShape e = true) :
    emptyWellShapedLogs e = false := by
  cases e with
  | null => simp [goodLogsShape] at hg
  | jbool b => simp [goodLogsShape] at hg
  | jnum n => simp [goodLogsShape] at hg
  | jstr s => simp [goodLogsShape] at hg
  | jarr xs => simp [goodLogsShape] at hg
  | jobj fields =>
    cases hlk : fields.lookup "Records" with
    | none => simp [goodLogsShape, hlk] at hg
    | some rv =>
      cases rv with
      | null => simp [goodLogsShape, hlk] at hg
      | jbool b => simp [goodLogsShape, hlk] at hg
      | jnum n => simp [goodLogsShape, hlk] at hg
      | jstr s => simp [goodLogsShape, hlk] at hg
      | jobj ofields => simp [goodLogsShape, hlk] at hg
      | jarr xs =>
        cases xs with
        | nil => simp [goodLogsShape, hlk] at hg
        | cons r rest =>
          cases r with
          | null => simp [goodLogsShape, hlk] at hg
          | jbool b => simp [goodLogsShape, hlk] at hg
          | jnum n => simp [goodLogsShape, hlk] at hg
          | jstr s => simp [goodLogsShape, hlk] at hg
          | jarr ys => simp [goodLogsShape, hlk] at hg
          | jobj rf =>
            cases hk : rf.lookup "kinesis" with
            | none => simp [goodLogsShape, hlk, hk] at hg
            | some kv =>
              simp [goodLogsShape, hlk, hk] at hg
              simp [emptyWellShapedLogs, hlk, hk, pyLen, hg]

lemma goodAlarm_not_empty (e : JVal) (hg : goodAlarmShape e = true) :
    emptyWellShapedAlarm e = false := by
  cases e with
  | null => simp [goodAlarmShape] at hg
  | jbool b => simp [goodAlarmShape] at hg
  | jnum n => simp [goodAlarmShape] at hg
  | jstr s => simp [goodAlarmShape] at hg
  | jarr xs => simp [goodAlarmShape] at hg
  | jobj fields =>
    cases hlk : fields.lookup "Records" with
    | none => simp [goodAlarmShape, hlk] at hg
    | some rv =>
      cases rv with
      | null => simp [goodAlarmShape, hlk] at hg
      | jbool b => simp [goodAlarmShape, hlk] at hg
      | jnum n => simp [goodAlarmShape, hlk] at hg
      | jstr s => simp [goodAlarmShape, hlk] at hg
      | jobj ofields => simp [goodAlarmShape, hlk] at hg
      | jarr xs =>
        cases xs with
        | nil => simp [goodAlarmShape, hlk] at hg
        | cons r rest =>
          cases r with
          | null => simp [goodAlarmShape, hlk] at hg
          | jbool b => simp [goodAlarmShape, hlk] at hg
          | jnum n => simp [goodAlarmShape, hlk] at hg
          | jstr s => simp [goodAlarmShape, hlk] at hg
          | jarr ys => simp [goodAlarmShape, hlk] at hg
          | jobj rf =>
            cases hs : rf.lookup "Sns" with
            | none => simp [goodAlarmShape, hlk, hs] at hg
            | some sns =>
              cases sns with
              | null => simp [goodAlarmShape, hlk, hs] at hg
              | jbool b => simp [goodAlarmShape, hlk, hs] at hg
              | jnum n => simp [goodAlarmShape, hlk, hs] at hg
              | jstr s2 => simp [goodAlarmShape, hlk, hs] at hg
              | jarr ys => simp [goodAlarmShape, hlk, hs] at hg
              | jobj sf =>
                cases hm : sf.lookup "Message" with
                | none => simp [goodAlarmShape, hlk, hs, hm] at hg
                | some m =>
                  simp [goodAlarmShape, hlk, hs, hm] at hg
                  simp [emptyWellShapedAlarm, hlk, hs, hm, hg]

/-- C9 as stated: every absent-field or null/malformed inbound event makes
`check_event_source` fail with UnknownEventSource.  False for the alarm
variant: an event whose `Records` list is present but empty hits
`self.event['Records'][0]` and raises an IndexError, which the
`except (KeyError, TypeError)` clause does not catch. -/
theorem c9_unknown_event_source_refuted :
    check_event_source_alarm (.jobj [("Records", .jarr [])]) = .error .indexError ∧
    CheckErr.indexError ≠ CheckErr.unknownEventSource := by
  constructor
  · rfl
  · intro h
    cases h

/-- C9 amended: the logs variant never fails with anything but
UnknownEventSource; the alarm variant additionally propagates an uncaught
IndexError exactly in the present-but-empty-`Records` situation (an empty
`Records` list forces it, and any IndexError implies `Records` was
successfully read with length 0); for both variants a returned value is
truthy exactly when the expected non-empty record structure is present, and
falsy only for an explicitly-empty-but-well-shaped structure. -/
theorem c9_check_event_source :
    (∀ e err, check_event_source_logs e = .error err → err = .unknownEventSource) ∧
    (∀ e, pyGetKey e "Records" = .ok (.jarr []) →
      check_event_source_alarm e = .error .indexError) ∧
    (∀ e, check_event_source_alarm e = .error .indexError →
      ∃ rv, pyGetKey e "Records" = .ok rv ∧ pyLen rv = .ok 0) ∧
    (∀ e v, check_event_source_logs e = .ok v →
      (pyTruthy v = true ↔ goodLogsShape e = true)) ∧
    (∀ e v, check_event_source_logs e = .ok v → pyTruthy v = false →
      emptyWellShapedLogs e = true) ∧
    (∀ e v, check_event_source_alarm e = .ok v →
      (pyTruthy v = true ↔ goodAlarmShape e = true)) ∧
    (∀ e v, check_event_source_alarm e = .ok v → pyTruthy v = false →
      emptyWellShapedAlarm e = true) := by
  refine ⟨checkLogs_err_eq, ?_, checkAlarm_index_cases, ?_, ?_, ?_, ?_⟩
  · intro e hrec
    cases e with
    | null => simp [pyGetKey] at hrec
    | jbool b => simp [pyGetKey] at hrec
    | jnum n => simp [pyGetKey] at hrec
    | jstr s => simp [pyGetKey] at hrec
    | jarr xs => simp [pyGetKey] at hrec
    | jobj fields =>
      cases hlk : fields.lookup "Records" with
      | none => simp [pyGetKey, hlk] at hrec
      | some rv =>
        simp [pyGetKey, hlk] at hrec
        subst hrec
        simp [check_event_source_alarm, pyGetKey, hlk, pyGetIdx, wrapErr]
  · intro e v h
    constructor
    · intro ht
      rcases checkLogs_ok_cases e v h with ⟨_, h2⟩ | ⟨h1, _⟩
      · exact h2
      · rw [ht] at h1; cases h1
    · intro hg
      rcases checkLogs_ok_cases e v h with ⟨h1, _⟩ | ⟨_, h2⟩
      · exact h1
      · rw [goodLogs_not_empty e hg] at h2; cases h2
  · intro e v h hf
    rcases checkLogs_ok_cases e v h with ⟨h1, _⟩ | ⟨_, h2⟩
    · rw [hf] at h1; cases h1
    · exact h2
  · intro e v h
    constructor
    · intro ht
      rcases checkAlarm_ok_cases e v h with ⟨_, h2⟩ | ⟨h1, _⟩
      · exact h2
      · rw [ht] at h1; cases h1
    · intro hg
      rcases checkAlarm_ok_cases e v h with ⟨h1, _⟩ | ⟨_, h2⟩
      · exact h1
      · rw [goodAlarm_not_empty e hg] at h2; cases h2
  · intro e v h hf
    rcases checkAlarm_ok_cases e v h with ⟨h1, _⟩ | ⟨_, h2⟩
    · rw [hf] at h1; cases h1
    · exact h2

theorem c9_check_event_source_witness :
    CheckErr.unknownEventSource = CheckErr.unknownEventSource ∧
    check_event_source_alarm (.jobj [("Records", .jarr [])]) = .error .indexError ∧
    pyTruthy (.jobj [("data", .jstr "x")]) = true ∧
    emptyWellShapedLogs (.jobj [("Records", .jarr [])]) = true :=
  ⟨c9_check_event_source.1 (.jobj []) .unknownEventSource rfl,
   c9_check_event_source.2.1 (.jobj [("Records", .jarr [])]) rfl,
   (c9_check_event_source.2.2.2.1
      (.jobj [("Records", .jarr [.jobj [("kinesis", .jobj [("data", .jstr "x")])]])])
      (.jobj [("data", .jstr "x")]) rfl).mpr rfl,
   c9_check_event_source.2.2.2.2.1 (.jobj [("Records", .jarr [])]) (.jbool false)
      rfl rfl⟩

end MinecraftDeploy
